import Mathlib

/-!
# Verification of the ExamTutorAI progress tracker and response parser

Shallow embedding of the reproducible core of `GeminiTeacher_path.py`:
the per-skill gamification state machine (`_handle_ai_result`, branch
`"submit_answer"`), the status-prefix and reference parsing
(`display_feedback`, `REFERENCE_REGEX`), the error handler
(`_handle_ai_error`) and the progress section of `save_config`.

Python `str` operations are modelled at the character-list level for the
ASCII range (`str.lower`, `str.startswith`, the `re` digit and whitespace
classes); all inputs appearing in the specification are ASCII.
-/

namespace ExamTutor

/-! ## Module-level constants (lines 74-100 of the source) -/

def POINTS_CORRECT : Nat := 10

def POINTS_PARTIAL : Nat := 5

def STREAK_BONUS_MULTIPLIER : Nat := 2

def LEVEL_UP_THRESHOLD : Nat := 50

def QUESTIONS_PER_LEVEL_UP : Nat := 5

def DIFFICULTY_LEVELS : List String := ["Easy", "Medium", "Hard"]

def ALL_MATERIALS_SKILL_NAME : String := "All Materials Review"

/-! ## Data model

One `skill_progress` entry per uploaded document, the dict
`{'score': …, 'streak': …, 'level': …, 'questions_answered': …,
'current_difficulty_index': …}` of the source (line 769). -/

structure SkillData where
  score : Nat
  streak : Nat
  level : Nat
  questions_answered : Nat
  current_difficulty_index : Nat
deriving Repr, DecidableEq

/-- The fresh default dict returned by `_get_current_skill_data`
when the current skill owns no stored entry (line 1457). -/
def defaultSkillData : SkillData :=
  { score := 0, streak := 0, level := 1, questions_answered := 0
    current_difficulty_index := 0 }

/-- The structured verdict extracted from a grading response. -/
inductive GradeOutcome where
  | Correct
  | PartiallyCorrect
  | Incorrect
  | Unclear
deriving Repr, DecidableEq

/-- Result of one graded answer: the new skill state, the points awarded,
and whether a level-up occurred (`self._level_up_occurred`). -/
structure GradeResult where
  data : SkillData
  points_earned : Nat
  level_up : Bool
deriving Repr, DecidableEq

/-! ## ASCII models of the Python string primitives -/

/-- `str.lower` on one ASCII character. -/
def pyLowerChar (c : Char) : Char :=
  if 65 ≤ c.toNat ∧ c.toNat ≤ 90 then Char.ofNat (c.toNat + 32) else c

/-- `str.lower` over a string, as a character list. -/
def pyLower (s : String) : List Char := s.toList.map pyLowerChar

/-- `s.startswith(p)` on character lists (`s` first, prefix second). -/
def startsWithL : List Char → List Char → Bool
  | _, [] => true
  | [], _ :: _ => false
  | c :: cs, p :: ps => c = p && startsWithL cs ps

/-- The status-prefix dispatch of `_handle_ai_result` (lines 1720-1751):
`feedback_lower = result_text.lower()` compared with `startswith` against
the three literal prefixes, in source order; no match is `Unclear`. -/
def outcomeOf (result_text : String) : GradeOutcome :=
  let feedback_lower := pyLower result_text
  if startsWithL feedback_lower "status: correct".toList then .Correct
  else if startsWithL feedback_lower "status: partially correct".toList then
    .PartiallyCorrect
  else if startsWithL feedback_lower "status: incorrect".toList then .Incorrect
  else .Unclear

/-! ## The grade state machine -/

/-- Lines 1756-1777 of `_handle_ai_result`: the update applied to the
current skill's dict after `points_earned` and `streak_broken` have been
fixed by the status branch — score and answer count bump, streak reset,
difficulty step, level recompute. -/
def applyGradeCore (sd : SkillData) (points_earned : Nat)
    (streak_broken : Bool) : GradeResult :=
  let sd := { sd with
    score := sd.score + points_earned
    questions_answered := sd.questions_answered + 1 }
  let sd := if streak_broken then { sd with streak := 0 } else sd
  let answered_count := sd.questions_answered
  let sd :=
    if answered_count > 0 ∧ answered_count % QUESTIONS_PER_LEVEL_UP = 0 ∧
        points_earned > 0 then
      if sd.current_difficulty_index < DIFFICULTY_LEVELS.length - 1 then
        { sd with current_difficulty_index := sd.current_difficulty_index + 1 }
      else sd
    else sd
  let new_level := 1 + sd.score / LEVEL_UP_THRESHOLD
  if new_level > sd.level then
    { data := { sd with level := new_level }, points_earned := points_earned
      level_up := true }
  else
    { data := sd, points_earned := points_earned, level_up := false }

/-- Lines 1727-1777 of `_handle_ai_result` for an individual skill whose
dict is stored in `skill_progress` (so the in-place `streak += 1` of the
`Correct` branch, line 1732, lands on the same dict the update block then
reads): the bonus is `skill_data['streak'] * STREAK_BONUS_MULTIPLIER`
computed AFTER the increment. -/
def applyGrade (sd : SkillData) (g : GradeOutcome) : GradeResult :=
  match g with
  | .Correct =>
    let sd := { sd with streak := sd.streak + 1 }
    applyGradeCore sd (POINTS_CORRECT + sd.streak * STREAK_BONUS_MULTIPLIER)
      false
  | .PartiallyCorrect => applyGradeCore sd POINTS_PARTIAL true
  | .Incorrect => applyGradeCore sd 0 true
  | .Unclear => applyGradeCore sd 0 true

/-- The `"submit_answer"` branch on the raw response text, for an
individual skill present in `skill_progress`. -/
def handleSubmitAnswer (sd : SkillData) (result_text : String) : GradeResult :=
  applyGrade sd (outcomeOf result_text)

/-- Folding a sequence of grades over a skill state. -/
def applyGrades (sd : SkillData) (gs : List GradeOutcome) : SkillData :=
  gs.foldl (fun s g => (applyGrade s g).data) sd

/-! ## The reference regex

`REFERENCE_REGEX = re.compile(r"Reference:\s*\[?(\d+)\]?:\[?(\d+)\]?")`
(line 74), used with `.search` (leftmost match).  For this particular
pattern greedy matching never needs backtracking: after `\s*` the next
atom must match `[` or a digit, neither of which is whitespace; after
consuming an optional `[` a digit is required, and `[` is not a digit;
after the maximal digit run the optional `]` and the literal `:` can
match neither a digit nor each other's characters.  So a deterministic
maximal-munch matcher below is exact. -/

/-- The `\d` class restricted to ASCII. -/
def pyIsDigit (c : Char) : Bool := 48 ≤ c.toNat && c.toNat ≤ 57

/-- The `\s` class restricted to ASCII
(space, tab, newline, carriage return, vertical tab, form feed). -/
def pyIsSpace (c : Char) : Bool :=
  c = ' ' || c = '\t' || c = '\n' || c = Char.ofNat 13 || c = Char.ofNat 11 ||
    c = Char.ofNat 12

/-- `int` of a nonempty decimal digit string. -/
def natOfDigits (ds : List Char) : Nat :=
  ds.foldl (fun n c => 10 * n + (c.toNat - 48)) 0

/-- Drop a single leading occurrence of `c` if present (the optional
bracket atoms `\[?` and `\]?`). -/
def dropOpt (c : Char) : List Char → List Char
  | [] => []
  | x :: xs => if x = c then xs else x :: xs

/-- Match `REFERENCE_REGEX` anchored at the start of `s`, returning the
two captured integers. -/
def matchRefAt (s : List Char) : Option (Nat × Nat) :=
  if startsWithL s "Reference:".toList then
    let rest := (s.drop 10).dropWhile pyIsSpace
    let rest := dropOpt '[' rest
    let ds1 := rest.takeWhile pyIsDigit
    let rest := rest.dropWhile pyIsDigit
    if ds1.isEmpty then none
    else
      match dropOpt ']' rest with
      | ':' :: rest =>
        let rest := dropOpt '[' rest
        let ds2 := rest.takeWhile pyIsDigit
        if ds2.isEmpty then none
        else some (natOfDigits ds1, natOfDigits ds2)
      | _ => none
  else none

/-- `REFERENCE_REGEX.search(text)`: try each start position left to
right, first successful position wins. -/
def searchRef : List Char → Option (Nat × Nat)
  | [] => none
  | c :: cs =>
    match matchRefAt (c :: cs) with
    | some r => some r
    | none => searchRef cs

/-! ## `display_feedback` (lines 1858-1894) -/

/-- The reference-related state touched by `display_feedback`:
`self.current_reference` (a `{'doc_index': d, 'page': p}` dict or `None`)
and the enabled state of the reference button. -/
structure RefState where
  current_reference : Option (Nat × Nat)
  reference_button_enabled : Bool
deriving Repr, DecidableEq

/-- `display_feedback`: reset the reference state, parse the first
reference tag, remap its document index according to the mode, keep it
only when the remapped index is in range of `pdf_file_paths`. -/
def display_feedback (text : String) (current_skill_name : String)
    (pdf_file_basenames : List String) (pdf_file_paths : List String)
    (_prev : RefState) : RefState :=
  let st : RefState :=
    { current_reference := none, reference_button_enabled := false }
  match searchRef text.toList with
  | none => st
  | some (doc_index_from_ai, page_num) =>
    let is_all_materials_mode := current_skill_name = ALL_MATERIALS_SKILL_NAME
    let actual_doc_index : Int :=
      if is_all_materials_mode then (doc_index_from_ai : Int)
      else if pdf_file_basenames.contains current_skill_name then
        (pdf_file_basenames.indexOf current_skill_name : Int)
      else -1
    if 0 ≤ actual_doc_index ∧ actual_doc_index < (pdf_file_paths.length : Int)
    then
      { current_reference := some (actual_doc_index.toNat, page_num)
        reference_button_enabled := true }
    else st

/-! ## Application state and the result / error handlers -/

/-- The slice of `StudyApp` state the grading and error handlers read or
write: the progress map (an insertion-ordered dict), the current skill
name, the two parallel document lists, the active question, the
reference state and the quiz-button state token. -/
structure AppState where
  skill_progress : List (String × SkillData)
  current_skill_name : String
  pdf_file_basenames : List String
  pdf_file_paths : List String
  current_question : Option String
  ref : RefState
  buttons_state : String
deriving Repr, DecidableEq

/-- Dict lookup `skill_progress[name]`. -/
def lookupProgress (m : List (String × SkillData)) (name : String) :
    Option SkillData :=
  (m.find? (fun p => p.1 = name)).map Prod.snd

/-- Dict store `skill_progress[name] = sd` (overwrite in place, append if
new, preserving insertion order like a Python dict). -/
def updateProgress (m : List (String × SkillData)) (name : String)
    (sd : SkillData) : List (String × SkillData) :=
  if m.any (fun p => p.1 = name) then
    m.map (fun p => if p.1 = name then (name, sd) else p)
  else m ++ [(name, sd)]

/-- `_get_current_skill_data` (lines 1450-1457): the stored dict when the
current skill is an individual skill with an entry, a fresh default dict
otherwise. -/
def get_current_skill_data (st : AppState) : SkillData :=
  if st.current_skill_name ≠ "" ∧
      st.current_skill_name ≠ ALL_MATERIALS_SKILL_NAME ∧
      (lookupProgress st.skill_progress st.current_skill_name).isSome then
    (lookupProgress st.skill_progress st.current_skill_name).getD
      defaultSkillData
  else defaultSkillData

/-- `_update_current_skill_data` (lines 1459-1468): store the dict for an
individual skill; a no-op for the combined review. -/
def update_current_skill_data (st : AppState) (data : SkillData) : AppState :=
  if st.current_skill_name ≠ "" ∧
      st.current_skill_name ≠ ALL_MATERIALS_SKILL_NAME then
    { st with skill_progress :=
        updateProgress st.skill_progress st.current_skill_name data }
  else st

/-- The `"submit_answer"` branch of `_handle_ai_result` (lines
1719-1788) at the application-state level.  The `Correct` branch's
`skill_data['streak'] += 1` (line 1732) mutates the dict returned by
`_get_current_skill_data` in place, so it persists exactly when that
dict is the stored one; the bonus is read from the incremented streak
either way.  Progress is then updated only outside All-Materials mode,
and `display_feedback` runs on the response text (line 1784). -/
def handle_submit_answer (st : AppState) (result_text : String) : AppState :=
  let is_all_materials_mode :=
    st.current_skill_name = ALL_MATERIALS_SKILL_NAME
  let g := outcomeOf result_text
  let points_earned :=
    match g with
    | .Correct =>
      if is_all_materials_mode then POINTS_CORRECT
      else POINTS_CORRECT +
        ((get_current_skill_data st).streak + 1) * STREAK_BONUS_MULTIPLIER
    | .PartiallyCorrect => POINTS_PARTIAL
    | .Incorrect => 0
    | .Unclear => 0
  let streak_broken := g ≠ .Correct
  let st :=
    if g = .Correct ∧ ¬is_all_materials_mode ∧
        st.current_skill_name ≠ "" ∧
        (lookupProgress st.skill_progress st.current_skill_name).isSome then
      let sd := get_current_skill_data st
      let bumped := { sd with streak := sd.streak + 1 }
      { st with skill_progress :=
          updateProgress st.skill_progress st.current_skill_name bumped }
    else st
  let st :=
    if ¬is_all_materials_mode then
      let skill_data := get_current_skill_data st
      let r := applyGradeCore skill_data points_earned streak_broken
      update_current_skill_data st r.data
    else st
  let newref := display_feedback result_text st.current_skill_name
    st.pdf_file_basenames st.pdf_file_paths st.ref
  let st := { st with ref := newref }
  { st with current_question := none, buttons_state := "feedback" }

/-- `_handle_ai_error` (lines 1800-1822): report the error through
`display_feedback` and reset the UI according to the failed task; the
progress map is never touched. -/
def handle_ai_error (st : AppState) (task_identifier error_message : String) :
    AppState :=
  let msg := "Error during \x27" ++ task_identifier ++ "\x27: " ++ error_message
  let newref := display_feedback msg st.current_skill_name
    st.pdf_file_basenames st.pdf_file_paths st.ref
  let st := { st with ref := newref }
  if task_identifier = "next_question" then
    { st with current_question := none, buttons_state := "initial" }
  else if task_identifier = "get_guidance" then
    { st with buttons_state := "question" }
  else if task_identifier = "submit_answer" then
    { st with buttons_state := "question" }
  else st

/-! ## `save_config`, Progress section (lines 1134-1145) -/

/-- The value string written for one skill. -/
def formatProgressLine (data : SkillData) : String :=
  "score=" ++ toString data.score ++
  ",streak=" ++ toString data.streak ++
  ",level=" ++ toString data.level ++
  ",answered=" ++ toString data.questions_answered ++
  ",diff_idx=" ++ toString data.current_difficulty_index

/-- The `[Progress]` section `save_config` writes: one line per stored
skill, skipping the combined review pseudo-skill. -/
def save_config_progress (skill_progress : List (String × SkillData)) :
    List (String × String) :=
  (skill_progress.filter (fun p => p.1 ≠ ALL_MATERIALS_SKILL_NAME)).map
    (fun p => (p.1, formatProgressLine p.2))

/-! ## Shape lemmas for the shared grade update -/

theorem applyGradeCore_points (sd : SkillData) (p : Nat) (b : Bool) :
    (applyGradeCore sd p b).points_earned = p := by
  simp only [applyGradeCore]
  split_ifs <;> rfl

theorem applyGradeCore_score (sd : SkillData) (p : Nat) (b : Bool) :
    (applyGradeCore sd p b).data.score = sd.score + p := by
  simp only [applyGradeCore]
  split_ifs <;> rfl

theorem applyGradeCore_answered (sd : SkillData) (p : Nat) (b : Bool) :
    (applyGradeCore sd p b).data.questions_answered =
      sd.questions_answered + 1 := by
  simp only [applyGradeCore]
  split_ifs <;> rfl

theorem applyGradeCore_streak (sd : SkillData) (p : Nat) (b : Bool) :
    (applyGradeCore sd p b).data.streak = if b then 0 else sd.streak := by
  simp only [applyGradeCore]
  cases b <;> split_ifs <;> rfl

theorem applyGradeCore_diff (sd : SkillData) (p : Nat) (b : Bool) :
    (applyGradeCore sd p b).data.current_difficulty_index =
      if (sd.questions_answered + 1) % QUESTIONS_PER_LEVEL_UP = 0 ∧ 0 < p ∧
          sd.current_difficulty_index < DIFFICULTY_LEVELS.length - 1 then
        sd.current_difficulty_index + 1
      else sd.current_difficulty_index := by
  simp only [applyGradeCore]
  cases b <;> split_ifs <;> simp_all

theorem applyGradeCore_level (sd : SkillData) (p : Nat) (b : Bool) :
    (applyGradeCore sd p b).data.level =
      if sd.level < 1 + (sd.score + p) / LEVEL_UP_THRESHOLD then
        1 + (sd.score + p) / LEVEL_UP_THRESHOLD
      else sd.level := by
  simp only [applyGradeCore]
  cases b <;> split_ifs <;> simp_all

theorem applyGrade_points (sd : SkillData) (g : GradeOutcome) :
    (applyGrade sd g).points_earned =
      match g with
      | .Correct => POINTS_CORRECT + (sd.streak + 1) * STREAK_BONUS_MULTIPLIER
      | .PartiallyCorrect => POINTS_PARTIAL
      | .Incorrect => 0
      | .Unclear => 0 := by
  cases g <;> simp [applyGrade, applyGradeCore_points]

theorem applyGrade_score (sd : SkillData) (g : GradeOutcome) :
    (applyGrade sd g).data.score = sd.score + (applyGrade sd g).points_earned := by
  cases g <;> simp [applyGrade, applyGradeCore_score, applyGradeCore_points]

theorem applyGrade_answered (sd : SkillData) (g : GradeOutcome) :
    (applyGrade sd g).data.questions_answered = sd.questions_answered + 1 := by
  cases g <;> simp [applyGrade, applyGradeCore_answered]

theorem applyGrade_streak (sd : SkillData) (g : GradeOutcome) :
    (applyGrade sd g).data.streak =
      if g = .Correct then sd.streak + 1 else 0 := by
  cases g <;> simp [applyGrade, applyGradeCore_streak]

theorem applyGrade_diff (sd : SkillData) (g : GradeOutcome) :
    (applyGrade sd g).data.current_difficulty_index =
      if (sd.questions_answered + 1) % QUESTIONS_PER_LEVEL_UP = 0 ∧
          0 < (applyGrade sd g).points_earned ∧
          sd.current_difficulty_index < DIFFICULTY_LEVELS.length - 1 then
        sd.current_difficulty_index + 1
      else sd.current_difficulty_index := by
  cases g <;>
    simp [applyGrade, applyGradeCore_diff, applyGradeCore_points]

theorem applyGrade_level (sd : SkillData) (g : GradeOutcome) :
    (applyGrade sd g).data.level =
      if sd.level <
          1 + (sd.score + (applyGrade sd g).points_earned) /
            LEVEL_UP_THRESHOLD then
        1 + (sd.score + (applyGrade sd g).points_earned) / LEVEL_UP_THRESHOLD
      else sd.level := by
  cases g <;> simp [applyGrade, applyGradeCore_level, applyGradeCore_points]

/-! ## Lemmas about grade sequences -/

theorem applyGrades_cons (sd : SkillData) (g : GradeOutcome)
    (gs : List GradeOutcome) :
    applyGrades sd (g :: gs) = applyGrades (applyGrade sd g).data gs := rfl

theorem applyGrade_level_inv (sd : SkillData) (g : GradeOutcome)
    (h : sd.level = 1 + sd.score / LEVEL_UP_THRESHOLD) :
    (applyGrade sd g).data.level =
      1 + (applyGrade sd g).data.score / LEVEL_UP_THRESHOLD := by
  rw [applyGrade_level, applyGrade_score]
  have hd : sd.score / LEVEL_UP_THRESHOLD ≤
      (sd.score + (applyGrade sd g).points_earned) / LEVEL_UP_THRESHOLD :=
    Nat.div_le_div_right (Nat.le_add_right _ _)
  split_ifs with hlt <;> omega

theorem applyGrades_level_inv (gs : List GradeOutcome) :
    ∀ sd : SkillData, sd.level = 1 + sd.score / LEVEL_UP_THRESHOLD →
      (applyGrades sd gs).level =
        1 + (applyGrades sd gs).score / LEVEL_UP_THRESHOLD := by
  induction gs with
  | nil => exact fun sd h => h
  | cons g gs ih =>
    intro sd h
    rw [applyGrades_cons]
    exact ih _ (applyGrade_level_inv sd g h)

theorem applyGrades_diff_mono (gs : List GradeOutcome) :
    ∀ sd : SkillData, sd.current_difficulty_index ≤
      (applyGrades sd gs).current_difficulty_index := by
  induction gs with
  | nil => exact fun sd => le_refl _
  | cons g gs ih =>
    intro sd
    rw [applyGrades_cons]
    refine le_trans ?_ (ih _)
    rw [applyGrade_diff]
    split_ifs <;> omega

theorem applyGrades_diff_bound (gs : List GradeOutcome) :
    ∀ sd : SkillData,
      sd.current_difficulty_index ≤ DIFFICULTY_LEVELS.length - 1 →
      (applyGrades sd gs).current_difficulty_index ≤
        DIFFICULTY_LEVELS.length - 1 := by
  induction gs with
  | nil => exact fun sd h => h
  | cons g gs ih =>
    intro sd h
    rw [applyGrades_cons]
    apply ih
    rw [applyGrade_diff]
    split_ifs <;> omega

theorem applyGrades_replicate_correct (N : Nat) :
    ∀ sd : SkillData,
      (applyGrades sd (List.replicate N GradeOutcome.Correct)).streak =
        sd.streak + N := by
  induction N with
  | zero => exact fun sd => rfl
  | succ n ih =>
    intro sd
    rw [List.replicate_succ, applyGrades_cons, ih, applyGrade_streak]
    simp only [if_true, reduceIte]
    omega

/-! ## Claim theorems -/

/-- C1, counterexample: from score=0, streak=0, level=1, answered=4,
diff_idx=0, a `Correct` grade does not award
`POINTS_CORRECT + 0 * STREAK_BONUS_MULTIPLIER = 10` points and does not
end with score 10: the code increments the streak before reading it for
the bonus, so it awards 12 and ends with score 12. -/
theorem C1_counterexample :
    (handleSubmitAnswer
        { score := 0, streak := 0, level := 1, questions_answered := 4
          current_difficulty_index := 0 } "Status: Correct").points_earned ≠
      POINTS_CORRECT + 0 * STREAK_BONUS_MULTIPLIER ∧
    (handleSubmitAnswer
        { score := 0, streak := 0, level := 1, questions_answered := 4
          current_difficulty_index := 0 } "Status: Correct").data.score ≠
      10 := by
  decide

/-- C1, amended: a `Correct` grade on a skill with streak `s` awards
`pointsEarned = POINTS_CORRECT + (s + 1) * STREAK_BONUS_MULTIPLIER` —
the bonus is computed from the streak value after it is incremented,
because line 1732 runs before line 1733 — and the streak becomes `s+1`;
starting from score=0, streak=0, level=1, questions_answered=4,
diff_idx=0, one `Correct` grade yields pointsEarned=12 and resulting
score=12, streak=1, questions_answered=5, level=1. -/
theorem C1_correct_bonus_after_increment :
    (∀ sd : SkillData,
      (applyGrade sd .Correct).points_earned =
        POINTS_CORRECT + (sd.streak + 1) * STREAK_BONUS_MULTIPLIER ∧
      (applyGrade sd .Correct).data.streak = sd.streak + 1) ∧
    (handleSubmitAnswer
        { score := 0, streak := 0, level := 1, questions_answered := 4
          current_difficulty_index := 0 } "Status: Correct").points_earned =
      12 ∧
    (handleSubmitAnswer
        { score := 0, streak := 0, level := 1, questions_answered := 4
          current_difficulty_index := 0 } "Status: Correct").data =
      { score := 12, streak := 1, level := 1, questions_answered := 5
        current_difficulty_index := 1 } := by
  refine ⟨fun sd => ⟨?_, ?_⟩, by decide, by decide⟩
  · rw [applyGrade_points]
  · rw [applyGrade_streak]
    simp

/-- C2: the level equation `level = 1 + score / LEVEL_UP_THRESHOLD` is
preserved by every single grade and by every sequence of grades, and the
score never decreases. -/
theorem C2_level_invariant :
    (∀ (sd : SkillData) (g : GradeOutcome),
      sd.level = 1 + sd.score / LEVEL_UP_THRESHOLD →
      (applyGrade sd g).data.level =
        1 + (applyGrade sd g).data.score / LEVEL_UP_THRESHOLD) ∧
    (∀ (sd : SkillData) (gs : List GradeOutcome),
      sd.level = 1 + sd.score / LEVEL_UP_THRESHOLD →
      (applyGrades sd gs).level =
        1 + (applyGrades sd gs).score / LEVEL_UP_THRESHOLD) ∧
    (∀ (sd : SkillData) (g : GradeOutcome),
      sd.score ≤ (applyGrade sd g).data.score) := by
  refine ⟨applyGrade_level_inv, fun sd gs h => applyGrades_level_inv gs sd h,
    fun sd g => ?_⟩
  rw [applyGrade_score]
  exact Nat.le_add_right _ _

/-- C2, witness: the invariant theorem applied at a concrete state and
grade. -/
theorem C2_level_invariant_witness :
    (applyGrade
        { score := 45, streak := 3, level := 1, questions_answered := 1
          current_difficulty_index := 0 } .Correct).data.level =
      1 + (applyGrade
        { score := 45, streak := 3, level := 1, questions_answered := 1
          current_difficulty_index := 0 } .Correct).data.score /
        LEVEL_UP_THRESHOLD :=
  C2_level_invariant.1 _ .Correct (by decide)

/-- C5: the difficulty index is incremented by exactly 1 on a graded
answer iff the incremented answer count is a positive multiple of
`QUESTIONS_PER_LEVEL_UP`, the answer earned points, and the index is
below `len(DIFFICULTY_LEVELS) - 1`; otherwise it is unchanged; across
any grade sequence it is non-decreasing and never leaves the range. -/
theorem C5_difficulty_step :
    (∀ (sd : SkillData) (g : GradeOutcome),
      ((applyGrade sd g).data.current_difficulty_index =
          sd.current_difficulty_index + 1 ↔
        (0 < sd.questions_answered + 1 ∧
         (sd.questions_answered + 1) % QUESTIONS_PER_LEVEL_UP = 0 ∧
         0 < (applyGrade sd g).points_earned ∧
         sd.current_difficulty_index < DIFFICULTY_LEVELS.length - 1)) ∧
      ((applyGrade sd g).data.current_difficulty_index =
          sd.current_difficulty_index ∨
       (applyGrade sd g).data.current_difficulty_index =
          sd.current_difficulty_index + 1)) ∧
    (∀ (sd : SkillData) (gs : List GradeOutcome),
      sd.current_difficulty_index ≤
        (applyGrades sd gs).current_difficulty_index) ∧
    (∀ (sd : SkillData) (gs : List GradeOutcome),
      sd.current_difficulty_index ≤ DIFFICULTY_LEVELS.length - 1 →
      (applyGrades sd gs).current_difficulty_index ≤
        DIFFICULTY_LEVELS.length - 1) := by
  refine ⟨fun sd g => ⟨?_, ?_⟩, fun sd gs => applyGrades_diff_mono gs sd,
    fun sd gs h => applyGrades_diff_bound gs sd h⟩
  · rw [applyGrade_diff]
    split_ifs with h <;> omega
  · rw [applyGrade_diff]
    split_ifs <;> simp

/-- C5, witness: the sequence bound applied at a concrete state and a
concrete grade list. -/
theorem C5_difficulty_step_witness :
    (applyGrades
        { score := 0, streak := 0, level := 1, questions_answered := 4
          current_difficulty_index := 2 }
        [.Correct, .PartiallyCorrect, .Correct]).current_difficulty_index ≤
      DIFFICULTY_LEVELS.length - 1 :=
  C5_difficulty_step.2.2
    { score := 0, streak := 0, level := 1, questions_answered := 4
      current_difficulty_index := 2 }
    [.Correct, .PartiallyCorrect, .Correct] (by decide)

/-- C6: `PartiallyCorrect` awards `POINTS_PARTIAL` and zeroes the
streak; `Incorrect` and `Unclear` award 0 and zero the streak, `Unclear`
being handled identically to `Incorrect`; N consecutive `Correct` grades
from streak 0 leave streak N. -/
theorem C6_noncorrect_grades :
    (∀ sd : SkillData,
      (applyGrade sd .PartiallyCorrect).points_earned = POINTS_PARTIAL ∧
      (applyGrade sd .PartiallyCorrect).data.streak = 0) ∧
    (∀ sd : SkillData,
      (applyGrade sd .Incorrect).points_earned = 0 ∧
      (applyGrade sd .Incorrect).data.streak = 0) ∧
    (∀ sd : SkillData,
      (applyGrade sd .Unclear).points_earned = 0 ∧
      (applyGrade sd .Unclear).data.streak = 0 ∧
      applyGrade sd .Unclear = applyGrade sd .Incorrect) ∧
    (∀ (sd : SkillData) (N : Nat), sd.streak = 0 →
      (applyGrades sd (List.replicate N GradeOutcome.Correct)).streak = N) := by
  refine ⟨fun sd => ⟨?_, ?_⟩, fun sd => ⟨?_, ?_⟩, fun sd => ⟨?_, ?_, rfl⟩,
    fun sd N h => ?_⟩
  · rw [applyGrade_points]
  · rw [applyGrade_streak]; simp
  · rw [applyGrade_points]
  · rw [applyGrade_streak]; simp
  · rw [applyGrade_points]
  · rw [applyGrade_streak]; simp
  · rw [applyGrades_replicate_correct, h]
    omega

/-- C6, witness: three consecutive `Correct` grades from a streak-0
state leave streak 3. -/
theorem C6_noncorrect_grades_witness :
    (applyGrades
        { score := 0, streak := 0, level := 1, questions_answered := 0
          current_difficulty_index := 0 }
        (List.replicate 3 GradeOutcome.Correct)).streak = 3 :=
  C6_noncorrect_grades.2.2.2
    { score := 0, streak := 0, level := 1, questions_answered := 0
      current_difficulty_index := 0 } 3 (by decide)

/-- C3: the status is extracted by comparing the lowercased leading text
against the three literal prefixes in priority order
`"status: correct"`, `"status: partially correct"`,
`"status: incorrect"`, first match winning, no match giving `Unclear`;
concretely the three specification examples evaluate as claimed. -/
theorem C3_status_extraction :
    (∀ s : String,
      (startsWithL (pyLower s) "status: correct".toList = true →
        outcomeOf s = .Correct) ∧
      (startsWithL (pyLower s) "status: correct".toList = false →
       startsWithL (pyLower s) "status: partially correct".toList = true →
        outcomeOf s = .PartiallyCorrect) ∧
      (startsWithL (pyLower s) "status: correct".toList = false →
       startsWithL (pyLower s) "status: partially correct".toList = false →
       startsWithL (pyLower s) "status: incorrect".toList = true →
        outcomeOf s = .Incorrect) ∧
      (startsWithL (pyLower s) "status: correct".toList = false →
       startsWithL (pyLower s) "status: partially correct".toList = false →
       startsWithL (pyLower s) "status: incorrect".toList = false →
        outcomeOf s = .Unclear)) ∧
    outcomeOf "Status: Correct. Reference: [1]:[4]" = .Correct ∧
    outcomeOf "status: partially correct, see notes" = .PartiallyCorrect ∧
    outcomeOf "I think it\x27s fine" = .Unclear := by
  refine ⟨fun s => ⟨?_, ?_, ?_, ?_⟩, by decide, by decide, by decide⟩
  · intro h1
    simp only [outcomeOf]
    rw [h1]
    rfl
  · intro h1 h2
    simp only [outcomeOf]
    rw [h1, h2]
    rfl
  · intro h1 h2 h3
    simp only [outcomeOf]
    rw [h1, h2, h3]
    rfl
  · intro h1 h2 h3
    simp only [outcomeOf]
    rw [h1, h2, h3]
    rfl

/-- C3, witness: the priority chain applied at a concrete response whose
lowercased text starts with `"status: incorrect"`. -/
theorem C3_status_extraction_witness :
    outcomeOf "STATUS: INCORRECT, alas" = .Incorrect :=
  (C3_status_extraction.1 "STATUS: INCORRECT, alas").2.2.1 (by decide)
    (by decide) (by decide)

/-- C4: in combined-review mode the parsed index is used unchanged; in
single-skill mode it is replaced by the current skill's position in the
canonical list (looked up by name, `-1` when absent); the reference is
kept iff the remapped index is in `[0, len(pdf_file_paths) - 1]`,
otherwise no reference is in effect; with 3 documents, combined-mode
`[2]:[7]` is kept as docIndex 2, page 7 and `[5]:[1]` is discarded. -/
theorem C4_reference_remap :
    (∀ (text skill : String) (bn paths : List String) (prev : RefState)
        (i pg : Nat),
      searchRef text.toList = some (i, pg) →
      (skill = ALL_MATERIALS_SKILL_NAME →
        display_feedback text skill bn paths prev =
          if i < paths.length then
            { current_reference := some (i, pg)
              reference_button_enabled := true }
          else
            { current_reference := none
              reference_button_enabled := false }) ∧
      (skill ≠ ALL_MATERIALS_SKILL_NAME →
        display_feedback text skill bn paths prev =
          if bn.contains skill ∧ bn.indexOf skill < paths.length then
            { current_reference := some (bn.indexOf skill, pg)
              reference_button_enabled := true }
          else
            { current_reference := none
              reference_button_enabled := false })) ∧
    display_feedback "Reference: [2]:[7]" ALL_MATERIALS_SKILL_NAME
      ["a.pdf", "b.pdf", "c.pdf"] ["pa", "pb", "pc"]
      { current_reference := none, reference_button_enabled := false } =
      { current_reference := some (2, 7), reference_button_enabled := true } ∧
    display_feedback "Reference: [5]:[1]" ALL_MATERIALS_SKILL_NAME
      ["a.pdf", "b.pdf", "c.pdf"] ["pa", "pb", "pc"]
      { current_reference := none, reference_button_enabled := false } =
      { current_reference := none, reference_button_enabled := false } := by
  refine ⟨fun text skill bn paths prev i pg h =>
    ⟨fun hsk => ?_, fun hsk => ?_⟩, by decide, by decide⟩
  · simp only [display_feedback, h, hsk]
    split_ifs <;> simp_all
  · simp only [display_feedback, h, hsk]
    split_ifs <;> simp_all

/-- C4, witness: the combined-mode remap rule applied at a concrete
in-range reference. -/
theorem C4_reference_remap_witness :
    display_feedback "Reference: [2]:[7]" ALL_MATERIALS_SKILL_NAME
        ["a.pdf", "b.pdf", "c.pdf"] ["pa", "pb", "pc"]
        { current_reference := none, reference_button_enabled := false } =
      if 2 < (["pa", "pb", "pc"] : List String).length then
        { current_reference := some (2, 7), reference_button_enabled := true }
      else { current_reference := none, reference_button_enabled := false } :=
  (C4_reference_remap.1 "Reference: [2]:[7]" ALL_MATERIALS_SKILL_NAME
    ["a.pdf", "b.pdf", "c.pdf"] ["pa", "pb", "pc"]
    { current_reference := none, reference_button_enabled := false } 2 7
    (by decide)).1 rfl

/-- C7: grading in All-Materials-Review mode leaves the whole progress
map unchanged, and the Progress section written by `save_config`
contains exactly the individual skills, never the combined-review
pseudo-skill. -/
theorem C7_all_materials_frame :
    (∀ (st : AppState) (text : String),
      st.current_skill_name = ALL_MATERIALS_SKILL_NAME →
      (handle_submit_answer st text).skill_progress = st.skill_progress) ∧
    (∀ m : List (String × SkillData),
      (save_config_progress m).map Prod.fst =
        (m.map Prod.fst).filter (fun n => n ≠ ALL_MATERIALS_SKILL_NAME)) ∧
    (∀ m : List (String × SkillData),
      ALL_MATERIALS_SKILL_NAME ∉ (save_config_progress m).map Prod.fst) := by
  have hkeys : ∀ m : List (String × SkillData),
      (save_config_progress m).map Prod.fst =
        (m.map Prod.fst).filter (fun n => n ≠ ALL_MATERIALS_SKILL_NAME) := by
    intro m
    induction m with
    | nil => rfl
    | cons p m ih =>
      by_cases hp : p.1 = ALL_MATERIALS_SKILL_NAME <;>
        simp [save_config_progress, List.filter_cons, hp] at ih ⊢ <;>
        exact ih
  refine ⟨fun st text h => ?_, hkeys, fun m => ?_⟩
  · simp [handle_submit_answer, h]
  · rw [hkeys]
    simp [List.mem_filter]

/-- C7, witness: grading a correct answer in All-Materials-Review mode
at a concrete state leaves the stored progress entry untouched. -/
theorem C7_all_materials_frame_witness :
    (handle_submit_answer
        { skill_progress := [("a.pdf",
            { score := 3, streak := 1, level := 1, questions_answered := 2
              current_difficulty_index := 0 })]
          current_skill_name := ALL_MATERIALS_SKILL_NAME
          pdf_file_basenames := ["a.pdf"]
          pdf_file_paths := ["pa"]
          current_question := some "q"
          ref := { current_reference := none, reference_button_enabled := false }
          buttons_state := "question" } "Status: Correct").skill_progress =
      [("a.pdf",
        { score := 3, streak := 1, level := 1, questions_answered := 2
          current_difficulty_index := 0 })] :=
  C7_all_materials_frame.1 _ "Status: Correct" rfl

/-- C8: the loose reference pattern accepts both bracketed and
unbracketed integer pairs, only the first occurrence is used, a text
with no parseable pattern yields no reference, and in that case
`display_feedback` leaves no reference in effect. -/
theorem C8_reference_extraction :
    searchRef "Reference: 2:5".toList = some (2, 5) ∧
    searchRef "Reference: [2]:[5]".toList = some (2, 5) ∧
    searchRef "Hint. Reference: [1]:[2] then Reference: [3]:[4]".toList =
      some (1, 2) ∧
    searchRef "I think it\x27s fine".toList = none ∧
    searchRef "Reference: [x]:[4]".toList = none ∧
    (∀ (text skill : String) (bn paths : List String) (prev : RefState),
      searchRef text.toList = none →
      display_feedback text skill bn paths prev =
        { current_reference := none, reference_button_enabled := false }) := by
  refine ⟨by decide, by decide, by decide, by decide, by decide,
    fun text skill bn paths prev h => ?_⟩
  have h' : searchRef text.data = none := h
  simp [display_feedback, h']

/-- C8, witness: the no-pattern rule applied at a concrete hint text. -/
theorem C8_reference_extraction_witness :
    display_feedback "No tag here" "b.pdf" ["a.pdf", "b.pdf"] ["pa", "pb"]
        { current_reference := some (0, 1), reference_button_enabled := true } =
      { current_reference := none, reference_button_enabled := false } :=
  C8_reference_extraction.2.2.2.2.2 "No tag here" "b.pdf" ["a.pdf", "b.pdf"]
    ["pa", "pb"]
    { current_reference := some (0, 1), reference_button_enabled := true }
    (by decide)

/-- C9: the AI-error handler never touches the progress map: every
skill's stored state is identical before and after the error is
handled, whichever task failed. -/
theorem C9_error_frame :
    ∀ (st : AppState) (task_identifier error_message : String),
      (handle_ai_error st task_identifier error_message).skill_progress =
        st.skill_progress ∧
      ∀ name : String,
        lookupProgress
            (handle_ai_error st task_identifier error_message).skill_progress
            name =
          lookupProgress st.skill_progress name := by
  intro st tid msg
  have h : (handle_ai_error st tid msg).skill_progress =
      st.skill_progress := by
    simp only [handle_ai_error]
    split_ifs <;> rfl
  exact ⟨h, fun name => by rw [h]⟩

/-- C10: `display_feedback` ignores the previously stored reference
state (it resets it before parsing), and at the end the stored reference
is a pair whose document index is within `[0, len(pdf_file_paths) - 1]`
iff the reference button is enabled. -/
theorem C10_reference_reset :
    ∀ (text skill : String) (bn paths : List String) (p1 p2 : RefState),
      display_feedback text skill bn paths p1 =
        display_feedback text skill bn paths p2 ∧
      ((∃ d pg, (display_feedback text skill bn paths p1).current_reference =
          some (d, pg) ∧ d < paths.length) ↔
        (display_feedback text skill bn paths p1).reference_button_enabled =
          true) := by
  intro text skill bn paths p1 p2
  refine ⟨rfl, ?_⟩
  unfold display_feedback
  cases hm : searchRef text.toList with
  | none => simp
  | some r =>
    obtain ⟨i, pg⟩ := r
    simp only
    split_ifs with hv <;> simp_all

end ExamTutor
